import Mathlib

/-!
Verification development for the geolius IP-geolocation service.

The definitions below are a shallow embedding of the Python sources:
`src/geolius/models.py`, `src/geolius/geolocation_service.py`,
`src/geolius/ip_validator.py`.  Python `Optional` values become `Option`,
exceptions become an explicit `Exn` sum carried in `Except`, the two MaxMind
readers become query functions held in `Option` fields of the service state,
and coordinates are modelled as rationals.  Python truthiness tests
(`x or d`, `x if x else None`, `if n:`) are embedded by the helpers
`pyOr`, `pyOptStr` and explicit zero tests, exactly where the source uses
them.
-/

namespace Geolius

/-- One subdivision entry of a MaxMind city record (geoip2 `Subdivision`):
optional name and optional ISO code. -/
structure Subdivision where
  name : Option String
  iso_code : Option String
  deriving DecidableEq, Repr

/-- The parts of a MaxMind `geoip2.models.City` record that
`GeolocationService._parse_city_response` reads. -/
structure City where
  country_name : Option String
  country_iso_code : Option String
  subdivisions : List Subdivision
  city_name : Option String
  postal_code : Option String
  latitude : Option Rat
  longitude : Option Rat
  time_zone : Option String
  deriving DecidableEq, Repr

/-- The parts of a MaxMind ASN record that `_parse_city_response` reads. -/
structure Asn where
  autonomous_system_number : Option Nat
  autonomous_system_organization : Option String
  deriving DecidableEq, Repr

/-- Ways a city-database query (`reader.city(...)`) can fail:
`geoip2.errors.AddressNotFoundError`, or any other exception
(read/parse errors such as `InvalidDatabaseError`). -/
inductive CityError where
  | addressNotFoundError
  | otherError (msg : String)
  deriving DecidableEq, Repr

/-- Ways an ASN-database query (`reader.asn(...)`) can fail:
`geoip2.errors.AddressNotFoundError`, `ValueError`, or any other
exception (e.g. `InvalidDatabaseError` on a corrupt ASN file). -/
inductive AsnError where
  | addressNotFoundError
  | valueError
  | otherError (msg : String)
  deriving DecidableEq, Repr

/-- Python exceptions that cross the service boundary: the three custom
exception types of `geolius.exceptions` that the service raises or the
batch handler catches, plus a catch-all for every other exception
(pydantic `ValidationError`, reader exceptions that no clause catches). -/
inductive Exn where
  | invalidIpAddressError (msg : String)
  | ipAddressNotFoundError (ip : String) (msg : String)
  | externalApiError (msg : String) (status_code : Option Nat)
  | otherExn (msg : String)
  deriving DecidableEq, Repr

/-- An open city-database reader handle, abstracted to its query function. -/
def CityReader : Type := String → Except CityError City

/-- An open ASN-database reader handle, abstracted to its query function. -/
def AsnReader : Type := String → Except AsnError Asn

/-- The mutable state of `GeolocationService`: the two configured paths and
the two lazily opened reader handles. -/
structure GeolocationService where
  city_db_path : String
  asn_db_path : String
  city_reader : Option CityReader
  asn_reader : Option AsnReader

/-- The filesystem environment the service runs in: `some r` means the
database file exists and opens to reader `r`; `none` means the file does
not exist at its configured path. -/
structure Env where
  city_db : Option CityReader
  asn_db : Option AsnReader

/-- The pydantic response model `IpGeolocationResponse` (field list of
`models.py`); `ip` is kept in textual form and the timestamp as a number. -/
structure IpGeolocationResponse where
  ip : String
  country : String
  country_code : String
  region : Option String
  region_code : Option String
  city : Option String
  postal_code : Option String
  latitude : Option Rat
  longitude : Option Rat
  timezone : Option String
  isp : Option String
  org : Option String
  asn : Option String
  query_timestamp : Nat
  deriving DecidableEq, Repr

/-- Python `x or d` on an optional string: `None` and `""` are falsy. -/
def pyOr (x : Option String) (d : String) : String :=
  match x with
  | some s => if s = "" then d else s
  | none => d

/-- Python `x if x else None` on an optional string. -/
def pyOptStr (x : Option String) : Option String :=
  match x with
  | some s => if s = "" then none else some s
  | none => none

/-- The pydantic bound `ge=-90, le=90` on the optional `latitude` field. -/
def latRangeOk (x : Option Rat) : Bool :=
  match x with
  | none => true
  | some v => decide (-(90 : Rat) ≤ v ∧ v ≤ 90)

/-- The pydantic bound `ge=-180, le=180` on the optional `longitude` field. -/
def lonRangeOk (x : Option Rat) : Bool :=
  match x with
  | none => true
  | some v => decide (-(180 : Rat) ≤ v ∧ v ≤ 180)

/-- Constructing `IpGeolocationResponse(...)` runs pydantic validation:
`country_code` is constrained by `min_length=2, max_length=2`, and the
coordinates by their range bounds; a violated constraint raises a
`ValidationError` (an exception outside the `geolius.exceptions` family). -/
def mkIpGeolocationResponse (ip country country_code : String)
    (region region_code city postal_code : Option String)
    (latitude longitude : Option Rat)
    (timezone isp org asn : Option String) (query_timestamp : Nat) :
    Except Exn IpGeolocationResponse :=
  if country_code.length = 2 then
    if latRangeOk latitude then
      if lonRangeOk longitude then
        .ok ⟨ip, country, country_code, region, region_code, city, postal_code,
             latitude, longitude, timezone, isp, org, asn, query_timestamp⟩
      else .error (.otherExn "1 validation error for IpGeolocationResponse: longitude")
    else .error (.otherExn "1 validation error for IpGeolocationResponse: latitude")
  else .error (.otherExn "1 validation error for IpGeolocationResponse: country_code")

/-- geoip2 `Subdivisions.most_specific`: the last subdivision of the
hierarchy, or an empty subdivision when the list is empty. -/
def mostSpecific (subs : List Subdivision) : Subdivision :=
  (subs.getLast?).getD ⟨none, none⟩

/-- Embedding of `GeolocationService._parse_city_response`.  The ASN block
queries the ASN reader when one is open; only `AddressNotFoundError` and
`ValueError` are caught (treated as absent ASN data) — any other ASN
exception propagates.  `isp` is initialised to `None` and never assigned.
The merge applies the source's truthiness defaults and then constructs the
pydantic model. -/
def parse_city_response (svc : GeolocationService) (city_response : City)
    (ip_address : String) (now : Nat) : Except Exn IpGeolocationResponse :=
  let asnData : Except Exn (Option String × Option String × Option String) :=
    match svc.asn_reader with
    | none => .ok (none, none, none)
    | some reader =>
      match reader ip_address with
      | .ok asn_response =>
        let asn_number : Option String :=
          match asn_response.autonomous_system_number with
          | some n => if n = 0 then none else some ("AS" ++ toString n)
          | none => none
        let org : Option String :=
          match asn_response.autonomous_system_organization with
          | some o => if o = "" then none else some o
          | none => none
        .ok (asn_number, none, org)
      | .error AsnError.addressNotFoundError => .ok (none, none, none)
      | .error AsnError.valueError => .ok (none, none, none)
      | .error (AsnError.otherError msg) => .error (.otherExn msg)
  match asnData with
  | .error e => .error e
  | .ok (asn_number, isp, org) =>
    let country := pyOr city_response.country_name "Unknown"
    let country_code := pyOr city_response.country_iso_code ""
    let regionPair : Option String × Option String :=
      if city_response.subdivisions.isEmpty then (none, none)
      else
        let subdivision := mostSpecific city_response.subdivisions
        (subdivision.name, subdivision.iso_code)
    let city := pyOptStr city_response.city_name
    let postal_code := pyOptStr city_response.postal_code
    let latitude := city_response.latitude
    let longitude := city_response.longitude
    let timezone := pyOptStr city_response.time_zone
    mkIpGeolocationResponse ip_address country country_code
      regionPair.1 regionPair.2 city postal_code latitude longitude timezone
      isp org asn_number now

/-- Embedding of `GeolocationService._ensure_readers`: lazily open the
mandatory city reader (raising `ExternalApiError(status_code=503)` when the
file is missing) and then the optional ASN reader (silently skipped when
its file is missing). -/
def ensure_readers (env : Env) (svc : GeolocationService) :
    Except Exn GeolocationService :=
  match svc.city_reader with
  | none =>
    match env.city_db with
    | none =>
      .error (.externalApiError
        ("MaxMind City database not found at " ++ svc.city_db_path ++
         ". Please download GeoLite2-City.mmdb and place it in the data directory.")
        (some 503))
    | some r =>
      .ok { svc with
              city_reader := some r,
              asn_reader := match svc.asn_reader with
                | none => env.asn_db
                | some a => some a }
  | some _ =>
    .ok { svc with
            asn_reader := match svc.asn_reader with
              | none => env.asn_db
              | some a => some a }

/-- Embedding of `GeolocationService.get_geolocation`: ensure the readers,
query the city database (`AddressNotFoundError` becomes
`IpAddressNotFoundError`, any other query exception becomes
`ExternalApiError(status_code=500)`), then merge via
`_parse_city_response`.  The returned state records reader mutations made
by `_ensure_readers`; a raise from `_ensure_readers` leaves the state
unchanged. -/
def get_geolocation (env : Env) (svc : GeolocationService)
    (ip_address : String) (now : Nat) :
    GeolocationService × Except Exn IpGeolocationResponse :=
  match ensure_readers env svc with
  | .error e => (svc, .error e)
  | .ok svc1 =>
    match svc1.city_reader with
    | none =>
      (svc1, .error (.externalApiError
        "Error querying geolocation database: NoneType has no attribute city"
        (some 500)))
    | some reader =>
      match reader ip_address with
      | .error CityError.addressNotFoundError =>
        (svc1, .error (.ipAddressNotFoundError ip_address
          ("No geolocation data available for IP address: " ++ ip_address)))
      | .error (CityError.otherError msg) =>
        (svc1, .error (.externalApiError
          ("Error querying geolocation database: " ++ msg) (some 500)))
      | .ok city_response =>
        (svc1, parse_city_response svc1 city_response ip_address now)

/-- The per-item error conversion of
`GeolocationService._get_geolocation_with_error_handling`: each exception
family becomes an (error type, detail) pair instead of propagating. -/
def errorTuple : Exn → String × String
  | .invalidIpAddressError msg => ("Invalid IP address format", msg)
  | .ipAddressNotFoundError _ msg => ("IP address not found", msg)
  | .externalApiError msg _ => ("Database error", msg)
  | .otherExn msg => ("Internal error", "Unexpected error: " ++ msg)

/-- Embedding of `_get_geolocation_with_error_handling`: run the single
lookup and convert any exception into an error tuple. -/
def get_geolocation_with_error_handling (env : Env)
    (svc : GeolocationService) (ip_address : String) (now : Nat) :
    GeolocationService × (IpGeolocationResponse ⊕ (String × String)) :=
  match get_geolocation env svc ip_address now with
  | (s, .ok r) => (s, Sum.inl r)
  | (s, .error e) => (s, Sum.inr (errorTuple e))

/-- One entry of the errors list built by `get_batch_geolocation`
(the `{"ip": ..., "error": ..., "detail": ...}` dict / `BatchIpError`). -/
structure BatchIpError where
  ip : String
  error : String
  detail : String
  deriving DecidableEq, Repr

/-- Embedding of `GeolocationService.get_batch_geolocation`: run the
error-handling wrapper for every address and split the outcomes, a
successful response into the results list and an error tuple into the
errors list keyed by the address it came from.  The shared service state
threads through the lookups. -/
def get_batch_geolocation (env : Env) (svc : GeolocationService) (now : Nat) :
    List String →
    GeolocationService × (List IpGeolocationResponse × List BatchIpError)
  | [] => (svc, ([], []))
  | ip :: rest =>
    let step := get_geolocation_with_error_handling env svc ip now
    let rest_out := get_batch_geolocation env step.1 now rest
    match step.2 with
    | Sum.inl r => (rest_out.1, (r :: rest_out.2.1, rest_out.2.2))
    | Sum.inr e => (rest_out.1, (rest_out.2.1, ⟨ip, e.1, e.2⟩ :: rest_out.2.2))

/-- Tokens recording which underlying reader handles a `close()` call
actually closed (the guarded `reader.close()` invocations). -/
inductive ReaderClosed where
  | cityReaderClosed
  | asnReaderClosed
  deriving DecidableEq, Repr

/-- Embedding of `GeolocationService.close`: close each reader handle that
is open and set both fields to `None`; the second component lists the
underlying `close()` invocations performed. -/
def GeolocationService.close (svc : GeolocationService) :
    GeolocationService × List ReaderClosed :=
  let cityEvents : List ReaderClosed :=
    match svc.city_reader with
    | some _ => [ReaderClosed.cityReaderClosed]
    | none => []
  let asnEvents : List ReaderClosed :=
    match svc.asn_reader with
    | some _ => [ReaderClosed.asnReaderClosed]
    | none => []
  ({ svc with city_reader := none, asn_reader := none },
   cityEvents ++ asnEvents)

/-- The pydantic success condition of the response built from a city
record: the derived `country_code` has length 2 and the coordinates are in
range.  `_parse_city_response` succeeds on a record exactly under this
condition (when the ASN step does not raise). -/
def City.respValid (c : City) : Bool :=
  decide ((pyOr c.country_iso_code "").length = 2) &&
    latRangeOk c.latitude && lonRangeOk c.longitude

/-- Projection used by concrete evaluations: the `(asn, org)` pair of a
lookup outcome, `none` when the lookup failed. -/
def asnOrgOf (r : Except Exn IpGeolocationResponse) :
    Option (Option String × Option String) :=
  match r with
  | .ok resp => some (resp.asn, resp.org)
  | .error _ => none

/-- Modelled from the spec: a validated address value.  The textual
address parser behind `ip_validator.validate_ip_address` is pydantic's
`IPvAnyAddress` (the Python `ipaddress` module), which is not part of this
repository; following spec section 4.1 an address is a dotted-quad IPv4
value or a colon-form IPv6 value. -/
inductive IpAddress where
  | v4 (octets : List Nat)
  | v6 (groups : List Nat)
  deriving DecidableEq, Repr

/-- A decimal digit character. -/
def isDecDig (c : Char) : Bool :=
  48 ≤ c.toNat && c.toNat ≤ 57

/-- A hexadecimal digit character. -/
def isHexDig (c : Char) : Bool :=
  (48 ≤ c.toNat && c.toNat ≤ 57) ||
  (97 ≤ c.toNat && c.toNat ≤ 102) ||
  (65 ≤ c.toNat && c.toNat ≤ 70)

/-- Decimal value of a digit string. -/
def decValue (cs : List Char) : Nat :=
  cs.foldl (fun a c => 10 * a + (c.toNat - 48)) 0

/-- Hexadecimal value of a digit character. -/
def hexDigVal (c : Char) : Nat :=
  if 48 ≤ c.toNat && c.toNat ≤ 57 then c.toNat - 48
  else if 97 ≤ c.toNat then c.toNat - 87
  else c.toNat - 55

/-- Hexadecimal value of a digit string. -/
def hexValue (cs : List Char) : Nat :=
  cs.foldl (fun a c => 16 * a + hexDigVal c) 0

/-- Modelled from the spec: one IPv4 octet field — a nonempty decimal
string whose value is in range (out-of-range octets are rejected). -/
def isOctetStr (cs : List Char) : Bool :=
  !cs.isEmpty && cs.all isDecDig && decide (decValue cs ≤ 255)

/-- Modelled from the spec: one IPv6 group — one to four hexadecimal
digits (non-hex groups are rejected). -/
def isHexGroup (cs : List Char) : Bool :=
  !cs.isEmpty && decide (cs.length ≤ 4) && cs.all isHexDig

/-- Split a character list at every occurrence of a separator; the
segments between separators are returned in order (an empty input yields
the single empty segment). -/
def splitSep (sep : Char) : List Char → List (List Char)
  | [] => [[]]
  | c :: cs =>
    if c = sep then [] :: splitSep sep cs
    else
      match splitSep sep cs with
      | [] => [[c]]
      | p :: ps => (c :: p) :: ps

/-- Join segments with a separator — the inverse of `splitSep`. -/
def joinSep (sep : Char) : List (List Char) → List Char
  | [] => []
  | [p] => p
  | p :: q :: rest => p ++ sep :: joinSep sep (q :: rest)

/-- Locate the first occurrence of a double colon `::`, returning the
characters before and after it. -/
def splitDC : List Char → Option (List Char × List Char)
  | [] => none
  | [_] => none
  | c :: c2 :: rest =>
    if c = ':' ∧ c2 = ':' then some ([], rest)
    else (splitDC (c2 :: rest)).map fun p => (c :: p.1, p.2)

/-- Modelled from the spec: dotted-quad IPv4 parsing — exactly four octet
fields separated by dots. -/
def parseIPv4 (cs : List Char) : Option IpAddress :=
  let parts := splitSep '.' cs
  if parts.length = 4 && parts.all isOctetStr then
    some (.v4 (parts.map decValue))
  else none

/-- Parse a colon-separated run of IPv6 groups with no compression in it;
an empty run (as on either side of `::`) yields no groups. -/
def strictGroups (cs : List Char) : Option (List (List Char)) :=
  if cs.isEmpty then some []
  else if (splitSep ':' cs).all isHexGroup then some (splitSep ':' cs)
  else none

/-- Modelled from the spec: colon-form IPv6 parsing, including compressed
forms — either eight groups, or a single `::` standing for the elided run
of zero groups between at most seven explicit groups. -/
def parseIPv6 (cs : List Char) : Option IpAddress :=
  match splitDC cs with
  | none =>
    let parts := splitSep ':' cs
    if parts.length = 8 && parts.all isHexGroup then
      some (.v6 (parts.map hexValue))
    else none
  | some (l, r) =>
    match strictGroups l, strictGroups r with
    | some gl, some gr =>
      if gl.length + gr.length ≤ 7 then
        some (.v6 ((gl.map hexValue) ++
          List.replicate (8 - gl.length - gr.length) 0 ++ (gr.map hexValue)))
      else none
    | _, _ => none

/-- Modelled from the spec: `ip_validator.validate_ip_address` — pydantic
`IPvAnyAddress` tries IPv4 first, then IPv6; a string in neither syntax is
rejected (`none`, the `InvalidAddress` outcome). -/
def validate_ip_address (s : String) : Option IpAddress :=
  match parseIPv4 s.data with
  | some a => some a
  | none => parseIPv6 s.data

/-- Declarative IPv4 validity: the string is four dot-joined octet
fields. -/
def isValidIPv4 (cs : List Char) : Prop :=
  ∃ parts : List (List Char), parts.length = 4 ∧
    (∀ p ∈ parts, isOctetStr p = true) ∧ cs = joinSep '.' parts

/-- Declarative IPv6 validity: eight colon-joined hex groups, or a
compressed form with one `::` and at most seven explicit groups around
it. -/
def isValidIPv6 (cs : List Char) : Prop :=
  (∃ gs : List (List Char), gs.length = 8 ∧
    (∀ g ∈ gs, isHexGroup g = true) ∧ cs = joinSep ':' gs) ∨
  (∃ gl gr : List (List Char), gl.length + gr.length ≤ 7 ∧
    (∀ g ∈ gl, isHexGroup g = true) ∧ (∀ g ∈ gr, isHexGroup g = true) ∧
    cs = joinSep ':' gl ++ ':' :: ':' :: joinSep ':' gr)

/-- Embedding of the pydantic validation of `BatchIpRequest.ip_addresses`
items: each entry must parse as an `IPvAnyAddress`. -/
def validateIpList : List String → Except String (List IpAddress)
  | [] => .ok []
  | s :: rest =>
    match validate_ip_address s with
    | none => .error ("value is not a valid IPv4 or IPv6 address: " ++ s)
    | some a =>
      match validateIpList rest with
      | .error e => .error e
      | .ok tl => .ok (a :: tl)

/-- Embedding of the pydantic validation of `BatchIpRequest`: the
`ip_addresses` list is constrained by `min_length=1, max_length=100`, and
its items must be valid addresses. -/
def mkBatchIpRequest (ip_addresses : List String) :
    Except String (List IpAddress) :=
  if ip_addresses.length < 1 then
    .error "List should have at least 1 item after validation, not 0"
  else if 100 < ip_addresses.length then
    .error "List should have at most 100 items after validation"
  else validateIpList ip_addresses

/-- `true` exactly when a batch-request validation outcome is an error. -/
def isBatchReqError (x : Except String (List IpAddress)) : Bool :=
  match x with
  | .error _ => true
  | .ok _ => false

/-! Concrete fixtures used to evaluate the definitions at specific
inputs: a city record mirroring the repository's `8.8.8.8` test fixture, a
record with no country data, and readers/services in various states. -/

/-- The `8.8.8.8` city fixture of `tests/test_geolocation_service.py`. -/
def usCity : City :=
  ⟨some "United States", some "US", [⟨some "California", some "CA"⟩],
   some "Mountain View", some "94043", some 37, some (-122),
   some "America/Los_Angeles"⟩

/-- A city record for which the database provides no country data and no
optional fields at all. -/
def noCountryCity : City := ⟨none, none, [], none, none, none, none, none⟩

/-- A city reader that answers every query with the `8.8.8.8` fixture. -/
def usCityReader : CityReader := fun _ => .ok usCity

/-- A city reader that knows only `8.8.8.8`. -/
def mixedCityReader : CityReader := fun ip =>
  if ip = "8.8.8.8" then .ok usCity else .error CityError.addressNotFoundError

/-- An ASN reader whose queries raise an exception that is neither
`AddressNotFoundError` nor `ValueError`. -/
def badAsnReader : AsnReader := fun _ =>
  .error (AsnError.otherError "The MaxMind DB file is invalid")

/-- An ASN reader with no entry for any address. -/
def notFoundAsnReader : AsnReader := fun _ =>
  .error AsnError.addressNotFoundError

/-- An ASN reader reporting system number 0 and an empty organization. -/
def zeroAsnReader : AsnReader := fun _ => .ok ⟨some 0, some ""⟩

/-- An ASN reader reporting the `AS15169` / `Google LLC` fixture. -/
def googleAsnReader : AsnReader := fun _ => .ok ⟨some 15169, some "Google LLC"⟩

/-- A service whose city reader is open and whose ASN reader is absent. -/
def plainService : GeolocationService :=
  ⟨"data/GeoLite2-City.mmdb", "data/GeoLite2-ASN.mmdb", some usCityReader, none⟩

/-- A service whose ASN reader raises an uncaught exception kind. -/
def badAsnService : GeolocationService :=
  ⟨"data/GeoLite2-City.mmdb", "data/GeoLite2-ASN.mmdb", some usCityReader,
   some badAsnReader⟩

/-- A service whose ASN reader finds no entry. -/
def notFoundAsnService : GeolocationService :=
  ⟨"data/GeoLite2-City.mmdb", "data/GeoLite2-ASN.mmdb", some usCityReader,
   some notFoundAsnReader⟩

/-- A service whose ASN reader reports number 0 and an empty organization. -/
def zeroAsnService : GeolocationService :=
  ⟨"data/GeoLite2-City.mmdb", "data/GeoLite2-ASN.mmdb", some usCityReader,
   some zeroAsnReader⟩

/-- A service whose ASN reader reports the Google fixture. -/
def googleAsnService : GeolocationService :=
  ⟨"data/GeoLite2-City.mmdb", "data/GeoLite2-ASN.mmdb", some usCityReader,
   some googleAsnReader⟩

/-- A freshly constructed service: no reader has been opened yet. -/
def freshService : GeolocationService :=
  ⟨"data/GeoLite2-City.mmdb", "data/GeoLite2-ASN.mmdb", none, none⟩

/-- An environment in which neither database file exists. -/
def emptyEnv : Env := ⟨none, none⟩

/-- An environment whose city database knows only `8.8.8.8` and which has
no ASN database. -/
def goodEnv : Env := ⟨some mixedCityReader, none⟩

/-- The response the service builds from `usCity` with no ASN data. -/
def usResponse : IpGeolocationResponse :=
  ⟨"8.8.8.8", "United States", "US", some "California", some "CA",
   some "Mountain View", some "94043", some 37, some (-122),
   some "America/Los_Angeles", none, none, none, 0⟩

/-! Theorems.  Helper lemmas about the merge step first, then one theorem
per claim. -/

/-- When pydantic construction succeeds, the response is exactly the field
tuple that was passed. -/
theorem mk_ok_inversion {ip country country_code : String}
    {region region_code city postal_code : Option String}
    {latitude longitude : Option Rat}
    {timezone isp org asn : Option String} {now : Nat}
    {r : IpGeolocationResponse}
    (h : mkIpGeolocationResponse ip country country_code region region_code
      city postal_code latitude longitude timezone isp org asn now = .ok r) :
    r = ⟨ip, country, country_code, region, region_code, city, postal_code,
         latitude, longitude, timezone, isp, org, asn, now⟩ := by
  unfold mkIpGeolocationResponse at h
  repeat' split at h
  all_goals first
    | (injection h with h; exact h.symm)
    | simp at h

/-- A failed pydantic construction raises an exception outside the
`geolius.exceptions` family. -/
theorem mk_error_shape {ip country country_code : String}
    {region region_code city postal_code : Option String}
    {latitude longitude : Option Rat}
    {timezone isp org asn : Option String} {now : Nat} {e : Exn}
    (h : mkIpGeolocationResponse ip country country_code region region_code
      city postal_code latitude longitude timezone isp org asn now
      = .error e) :
    ∃ m, e = Exn.otherExn m := by
  unfold mkIpGeolocationResponse at h
  repeat' split at h
  all_goals first
    | (injection h with h; exact ⟨_, h.symm⟩)
    | simp at h

/-- Pydantic construction succeeds when the constrained fields are in
range. -/
theorem mk_succeeds {ip country country_code : String}
    {region region_code city postal_code : Option String}
    {latitude longitude : Option Rat}
    {timezone isp org asn : Option String} {now : Nat}
    (h2 : country_code.length = 2)
    (hla : latRangeOk latitude = true) (hlo : lonRangeOk longitude = true) :
    mkIpGeolocationResponse ip country country_code region region_code
      city postal_code latitude longitude timezone isp org asn now
    = .ok ⟨ip, country, country_code, region, region_code, city, postal_code,
           latitude, longitude, timezone, isp, org, asn, now⟩ := by
  unfold mkIpGeolocationResponse
  rw [if_pos h2, if_pos hla, if_pos hlo]

/-- When the merge step succeeds, every field outside the ASN enrichment
is determined by the city record as the source computes it. -/
theorem parse_ok_fields {svc : GeolocationService} {c : City}
    {ip : String} {now : Nat} {r : IpGeolocationResponse}
    (h : parse_city_response svc c ip now = .ok r) :
    r.ip = ip ∧
    r.country = pyOr c.country_name "Unknown" ∧
    r.country_code = pyOr c.country_iso_code "" ∧
    r.region = (if c.subdivisions.isEmpty then none
                else (mostSpecific c.subdivisions).name) ∧
    r.region_code = (if c.subdivisions.isEmpty then none
                     else (mostSpecific c.subdivisions).iso_code) ∧
    r.city = pyOptStr c.city_name ∧
    r.postal_code = pyOptStr c.postal_code ∧
    r.latitude = c.latitude ∧
    r.longitude = c.longitude ∧
    r.timezone = pyOptStr c.time_zone ∧
    r.isp = none ∧
    r.query_timestamp = now := by
  rcases hA : svc.asn_reader with _ | rdr
  · simp only [parse_city_response, hA] at h
    have := mk_ok_inversion h
    subst this
    by_cases hc : c.subdivisions.isEmpty = true <;> simp [hc]
  · cases hq : rdr ip with
    | ok a =>
      simp only [parse_city_response, hA, hq] at h
      have := mk_ok_inversion h
      subst this
      by_cases hc : c.subdivisions.isEmpty = true <;> simp [hc]
    | error err =>
      cases err with
      | addressNotFoundError =>
        simp only [parse_city_response, hA, hq] at h
        have := mk_ok_inversion h
        subst this
        by_cases hc : c.subdivisions.isEmpty = true <;> simp [hc]
      | valueError =>
        simp only [parse_city_response, hA, hq] at h
        have := mk_ok_inversion h
        subst this
        by_cases hc : c.subdivisions.isEmpty = true <;> simp [hc]
      | otherError msg =>
        simp only [parse_city_response, hA, hq] at h
        exact absurd h (by simp)

/-- The merge step never fails with a typed `geolius` exception: any
exception it raises is from outside that family. -/
theorem parse_error_shape {svc : GeolocationService} {c : City}
    {ip : String} {now : Nat} {e : Exn}
    (h : parse_city_response svc c ip now = .error e) :
    ∃ m, e = Exn.otherExn m := by
  rcases hA : svc.asn_reader with _ | rdr
  · simp only [parse_city_response, hA] at h
    exact mk_error_shape h
  · cases hq : rdr ip with
    | ok a =>
      simp only [parse_city_response, hA, hq] at h
      exact mk_error_shape h
    | error err =>
      cases err with
      | addressNotFoundError =>
        simp only [parse_city_response, hA, hq] at h
        exact mk_error_shape h
      | valueError =>
        simp only [parse_city_response, hA, hq] at h
        exact mk_error_shape h
      | otherError msg =>
        simp only [parse_city_response, hA, hq] at h
        exact ⟨msg, by injection h with h; exact h.symm⟩

/-- Claim C10: for every successful single lookup the `isp` field of the
returned response is `none`: the merge step initialises it to `None` and
never assigns it, whatever the ASN reader state or its answer. -/
theorem claim_C10 (svc : GeolocationService) (c : City) (ip : String)
    (now : Nat) (r : IpGeolocationResponse)
    (h : parse_city_response svc c ip now = .ok r) : r.isp = none :=
  (parse_ok_fields h).2.2.2.2.2.2.2.2.2.2.1

theorem claim_C10_witness : usResponse.isp = none :=
  claim_C10 plainService usCity "8.8.8.8" 0 usResponse rfl

/-- Claim C1 (failing case): on a city record for which the database
provides no country data, the merge computes the documented fallbacks
`"Unknown"` and `""`, but constructing the response model then fails,
because `models.py` constrains `country_code` by `min_length=2`: the
lookup raises a validation error instead of returning the response the
spec describes. -/
theorem claim_C1 :
    pyOr noCountryCity.country_name "Unknown" = "Unknown" ∧
    pyOr noCountryCity.country_iso_code "" = "" ∧
    parse_city_response plainService noCountryCity "8.8.8.8" 0 =
      .error (.otherExn
        "1 validation error for IpGeolocationResponse: country_code") :=
  ⟨rfl, rfl, rfl⟩

/-- Claim C9: `close()` is idempotent and total — after any `close()` both
handles are `None`; a second `close()` changes nothing and closes no
underlying handle; closing a service whose handles were never opened
performs no underlying close at all (so nothing can raise). -/
theorem claim_C9 (svc : GeolocationService) :
    (svc.close.1.city_reader = none ∧ svc.close.1.asn_reader = none) ∧
    svc.close.1.close = (svc.close.1, []) ∧
    (svc.city_reader = none → svc.asn_reader = none →
      svc.close = (svc, [])) := by
  obtain ⟨p1, p2, cr, ar⟩ := svc
  refine ⟨⟨rfl, rfl⟩, rfl, ?_⟩
  intro h1 h2
  subst h1; subst h2
  rfl

theorem claim_C9_witness :
    GeolocationService.close ⟨"data/GeoLite2-City.mmdb",
      "data/GeoLite2-ASN.mmdb", none, none⟩ =
    (⟨"data/GeoLite2-City.mmdb", "data/GeoLite2-ASN.mmdb", none, none⟩,
     []) :=
  (claim_C9 _).2.2 rfl rfl

/-- Claim C3 (failing case): an ASN-query error that is neither
`AddressNotFoundError` nor `ValueError` is not swallowed — it propagates
and the whole single lookup fails, although the city query succeeded. -/
theorem claim_C3_counterexample :
    (get_geolocation goodEnv badAsnService "8.8.8.8" 0).2 =
      .error (.otherExn "The MaxMind DB file is invalid") := rfl

/-- Claim C3, amended: an ASN-query error of kind `AddressNotFoundError`
or `ValueError` is swallowed and treated as absent ASN data, so the merge
still returns a response with `isp`/`org`/`asn` absent; an ASN-query error
of any other kind propagates and fails the lookup. -/
theorem claim_C3 (svc : GeolocationService) (rdr : AsnReader) (c : City)
    (ip : String) (now : Nat)
    (hA : svc.asn_reader = some rdr) (hv : c.respValid = true) :
    ((rdr ip = .error AsnError.addressNotFoundError ∨
      rdr ip = .error AsnError.valueError) →
      ∃ r, parse_city_response svc c ip now = .ok r ∧
        r.isp = none ∧ r.org = none ∧ r.asn = none) ∧
    (∀ msg, rdr ip = .error (AsnError.otherError msg) →
      parse_city_response svc c ip now = .error (.otherExn msg)) := by
  simp only [City.respValid, Bool.and_eq_true, decide_eq_true_eq] at hv
  obtain ⟨⟨hcc, hla⟩, hlo⟩ := hv
  constructor
  · rintro (hq | hq)
    · simp only [parse_city_response, hA, hq]
      exact ⟨_, mk_succeeds hcc hla hlo, rfl, rfl, rfl⟩
    · simp only [parse_city_response, hA, hq]
      exact ⟨_, mk_succeeds hcc hla hlo, rfl, rfl, rfl⟩
  · intro msg hq
    simp only [parse_city_response, hA, hq]

theorem claim_C3_witness :
    asnOrgOf (parse_city_response notFoundAsnService usCity "8.8.8.8" 0) =
      some (none, none) := by
  obtain ⟨r, hok, hisp, horg, hasn⟩ :=
    (claim_C3 notFoundAsnService notFoundAsnReader usCity "8.8.8.8" 0
      rfl rfl).1 (Or.inl rfl)
  rw [hok]
  simp only [asnOrgOf, horg, hasn]

/-- Claim C5 (failing case): on an ASN record with system number 0 and an
empty organization string, the merge yields `asn = none` (not `"AS0"`) and
`org = none` (not the returned organization), because the source guards
both with Python truthiness. -/
theorem claim_C5_counterexample :
    asnOrgOf (parse_city_response zeroAsnService usCity "8.8.8.8" 0) =
      some (none, none) ∧
    asnOrgOf (parse_city_response zeroAsnService usCity "8.8.8.8" 0) ≠
      some (some "AS0", some "") := by
  have h1 : asnOrgOf (parse_city_response zeroAsnService usCity "8.8.8.8" 0)
      = some (none, none) := rfl
  exact ⟨h1, by rw [h1]; simp⟩

/-- Claim C5, amended: for every successful lookup, a nonzero system
number `n` yields `asn = "AS" ++ digits of n`; an absent or zero system
number yields an absent `asn`; a non-empty organization name passes
through to `org`, while an absent or empty one yields an absent `org`. -/
theorem claim_C5 (svc : GeolocationService) (rdr : AsnReader) (c : City)
    (ip : String) (now : Nat) (a : Asn)
    (hA : svc.asn_reader = some rdr) (hq : rdr ip = .ok a)
    (hv : c.respValid = true) :
    ∃ r, parse_city_response svc c ip now = .ok r ∧
      (∀ n, a.autonomous_system_number = some n → n ≠ 0 →
        r.asn = some ("AS" ++ toString n)) ∧
      ((a.autonomous_system_number = none ∨
        a.autonomous_system_number = some 0) → r.asn = none) ∧
      (∀ o, a.autonomous_system_organization = some o → o ≠ "" →
        r.org = some o) ∧
      ((a.autonomous_system_organization = none ∨
        a.autonomous_system_organization = some "") → r.org = none) ∧
      r.isp = none := by
  simp only [City.respValid, Bool.and_eq_true, decide_eq_true_eq] at hv
  obtain ⟨⟨hcc, hla⟩, hlo⟩ := hv
  simp only [parse_city_response, hA, hq]
  refine ⟨_, mk_succeeds hcc hla hlo, ?_, ?_, ?_, ?_, rfl⟩
  · intro n hn hn0
    simp [hn, hn0]
  · rintro (hn | hn) <;> simp [hn]
  · intro o ho ho0
    simp [ho, ho0]
  · rintro (ho | ho) <;> simp [ho]

theorem claim_C5_witness :
    asnOrgOf (parse_city_response googleAsnService usCity "8.8.8.8" 0) =
      some (some "AS15169", some "Google LLC") := by
  obtain ⟨r, hok, h1, h2, h3, h4, h5⟩ :=
    claim_C5 googleAsnService googleAsnReader usCity "8.8.8.8" 0
      ⟨some 15169, some "Google LLC"⟩ rfl rfl rfl
  have ha := h1 15169 rfl (by decide)
  have ho := h3 "Google LLC" rfl (by decide)
  rw [hok]
  simp only [asnOrgOf, ha, ho]
  rfl

/-- Claim C6: for every successful lookup, `region`/`region_code` come
from the most specific (last) subdivision of the city record's hierarchy,
and are absent when the record reports no subdivisions. -/
theorem claim_C6 (svc : GeolocationService) (c : City) (ip : String)
    (now : Nat) (r : IpGeolocationResponse)
    (h : parse_city_response svc c ip now = .ok r) :
    (∀ sub, c.subdivisions.getLast? = some sub →
      r.region = sub.name ∧ r.region_code = sub.iso_code) ∧
    (c.subdivisions = [] → r.region = none ∧ r.region_code = none) := by
  have hf := parse_ok_fields h
  have h4 := hf.2.2.2.1
  have h5 := hf.2.2.2.2.1
  constructor
  · intro sub hsub
    rcases hs : c.subdivisions with _ | ⟨x, xs⟩
    · rw [hs] at hsub; simp at hsub
    · rw [hs] at hsub h4 h5
      simp only [mostSpecific, hsub, List.isEmpty_cons, Option.getD_some,
        if_false, Bool.false_eq_true] at h4 h5
      exact ⟨h4, h5⟩
  · intro h0
    rw [h0] at h4 h5
    simp only [List.isEmpty_nil, if_true] at h4 h5
    exact ⟨h4, h5⟩

theorem claim_C6_witness :
    usResponse.region = some "California" ∧
    usResponse.region_code = some "CA" :=
  (claim_C6 plainService usCity "8.8.8.8" 0 usResponse rfl).1
    ⟨some "California", some "CA"⟩ rfl

/-- Claim C4: a single lookup fails with `IpAddressNotFoundError` exactly
when the city database has no entry covering the address; it fails with
`ExternalApiError(status_code=503)` when the mandatory city database file
is missing at first use, and with `ExternalApiError(status_code=500)` on
any other city-database query error; being an `Except`, no successful
response is produced in any of these cases. -/
theorem claim_C4 (env : Env) (svc : GeolocationService) (ip : String)
    (now : Nat) :
    (svc.city_reader = none → env.city_db = none →
      (get_geolocation env svc ip now).2 = .error (.externalApiError
        ("MaxMind City database not found at " ++ svc.city_db_path ++
         ". Please download GeoLite2-City.mmdb and place it in the data directory.")
        (some 503))) ∧
    (∀ rdr : CityReader,
      (svc.city_reader = some rdr ∨
       (svc.city_reader = none ∧ env.city_db = some rdr)) →
      (((get_geolocation env svc ip now).2 = .error (.ipAddressNotFoundError
          ip ("No geolocation data available for IP address: " ++ ip)) ↔
        rdr ip = .error CityError.addressNotFoundError) ∧
       (∀ msg, rdr ip = .error (CityError.otherError msg) →
        (get_geolocation env svc ip now).2 = .error (.externalApiError
          ("Error querying geolocation database: " ++ msg) (some 500))))) := by
  constructor
  · intro hc he
    simp only [get_geolocation, ensure_readers, hc, he]
  · intro rdr hd
    have hens : ∃ svc1, ensure_readers env svc = .ok svc1 ∧
        svc1.city_reader = some rdr := by
      rcases hd with hc | ⟨hc, he⟩
      · simp only [ensure_readers, hc]
        exact ⟨_, rfl, rfl⟩
      · simp only [ensure_readers, hc, he]
        exact ⟨_, rfl, rfl⟩
    obtain ⟨svc1, hok, hcr⟩ := hens
    constructor
    · constructor
      · intro h
        cases hq : rdr ip with
        | ok cityr =>
          simp only [get_geolocation, hok, hcr, hq] at h
          obtain ⟨m, hm⟩ := parse_error_shape h
          simp at hm
        | error err =>
          cases err with
          | addressNotFoundError => rfl
          | otherError msg =>
            simp only [get_geolocation, hok, hcr, hq] at h
            exact absurd h (by simp)
      · intro hq
        simp only [get_geolocation, hok, hcr, hq]
    · intro msg hq
      simp only [get_geolocation, hok, hcr, hq]

theorem claim_C4_witness :
    (get_geolocation emptyEnv freshService "8.8.8.8" 0).2 =
      .error (.externalApiError
        ("MaxMind City database not found at data/GeoLite2-City.mmdb. " ++
         "Please download GeoLite2-City.mmdb and place it in the data directory.")
        (some 503)) :=
  (claim_C4 emptyEnv freshService "8.8.8.8" 0).1 rfl rfl

/-- Claim C2: a batch lookup is total — every item's outcome is captured
independently, each failure becoming an `{ip, error, detail}` entry whose
address comes from the input list, and the success and error lists always
partition the input: their lengths sum to the input length. -/
theorem claim_C2 (env : Env) (svc : GeolocationService) (now : Nat)
    (ips : List String) :
    ((get_batch_geolocation env svc now ips).2.1.length +
     (get_batch_geolocation env svc now ips).2.2.length = ips.length) ∧
    (∀ e ∈ (get_batch_geolocation env svc now ips).2.2, e.ip ∈ ips) := by
  induction ips generalizing svc with
  | nil => simp [get_batch_geolocation]
  | cons ip rest ih =>
    obtain ⟨ih1, ih2⟩ :=
      ih (get_geolocation_with_error_handling env svc ip now).1
    cases hq : (get_geolocation_with_error_handling env svc ip now).2 with
    | inl r =>
      simp only [get_batch_geolocation, hq]
      refine ⟨?_, ?_⟩
      · simp only [List.length_cons]
        omega
      · intro e he
        exact List.mem_cons_of_mem ip (ih2 e he)
    | inr err =>
      simp only [get_batch_geolocation, hq]
      refine ⟨?_, ?_⟩
      · simp only [List.length_cons]
        omega
      · intro e he
        rcases List.mem_cons.mp he with h1 | h1
        · subst h1
          exact List.mem_cons_self _ _
        · exact List.mem_cons_of_mem ip (ih2 e h1)

theorem claim_C2_witness :
    (get_batch_geolocation goodEnv freshService 0
      ["8.8.8.8", "9.9.9.9"]).2.1.length +
    (get_batch_geolocation goodEnv freshService 0
      ["8.8.8.8", "9.9.9.9"]).2.2.length = 2 :=
  (claim_C2 goodEnv freshService 0 ["8.8.8.8", "9.9.9.9"]).1

/-- Claim C8: a batch request body whose address list has fewer than 1 or
more than 100 entries is rejected by the request model's validation, so no
lookup is dispatched for it; for 1 to 100 entries the count constraint
passes and the outcome is exactly the item-wise address validation. -/
theorem claim_C8 (ips : List String) :
    ((ips.length = 0 ∨ 100 < ips.length) →
      ∃ msg, mkBatchIpRequest ips = .error msg) ∧
    (1 ≤ ips.length → ips.length ≤ 100 →
      mkBatchIpRequest ips = validateIpList ips) := by
  constructor
  · rintro (h | h)
    · refine ⟨"List should have at least 1 item after validation, not 0", ?_⟩
      unfold mkBatchIpRequest
      rw [if_pos (by omega)]
    · refine ⟨"List should have at most 100 items after validation", ?_⟩
      unfold mkBatchIpRequest
      rw [if_neg (by omega), if_pos h]
  · intro h1 h2
    unfold mkBatchIpRequest
    rw [if_neg (by omega), if_neg (by omega)]

theorem claim_C8_witness :
    isBatchReqError (mkBatchIpRequest []) = true ∧
    mkBatchIpRequest ["8.8.8.8"] = validateIpList ["8.8.8.8"] := by
  constructor
  · obtain ⟨msg, hm⟩ := (claim_C8 []).1 (Or.inl rfl)
    rw [hm]
    rfl
  · exact (claim_C8 ["8.8.8.8"]).2 (by decide) (by decide)

/-! Correctness of the modelled address parser: the split/join pair, the
double-colon locator, and the equivalence of the parser with the
declarative IPv4/IPv6 grammars. -/

theorem splitSep_ne_nil (sep : Char) (cs : List Char) :
    splitSep sep cs ≠ [] := by
  induction cs with
  | nil => simp [splitSep]
  | cons c cs ih =>
    simp only [splitSep]
    split
    · simp
    · split <;> simp

theorem joinSep_splitSep (sep : Char) (cs : List Char) :
    joinSep sep (splitSep sep cs) = cs := by
  induction cs with
  | nil => rfl
  | cons c cs ih =>
    simp only [splitSep]
    split
    · rename_i hc
      cases hs : splitSep sep cs with
      | nil => exact absurd hs (splitSep_ne_nil sep cs)
      | cons p ps =>
        rw [hs] at ih
        simp only [joinSep, List.nil_append]
        rw [ih, hc]
    · rename_i hc
      cases hs : splitSep sep cs with
      | nil => exact absurd hs (splitSep_ne_nil sep cs)
      | cons p ps =>
        rw [hs] at ih
        cases ps with
        | nil =>
          simp only [joinSep] at ih ⊢
          rw [ih]
        | cons q qs =>
          simp only [joinSep] at ih ⊢
          rw [← ih]
          rfl

theorem mem_splitSep_not_sep (sep : Char) (cs : List Char) :
    ∀ p ∈ splitSep sep cs, sep ∉ p := by
  induction cs with
  | nil =>
    intro p hp
    simp [splitSep] at hp
    subst hp
    simp
  | cons c cs ih =>
    intro p hp
    simp only [splitSep] at hp
    split at hp
    · rename_i hc
      rcases List.mem_cons.mp hp with h1 | h1
      · subst h1; simp
      · exact ih p h1
    · rename_i hc
      cases hs : splitSep sep cs with
      | nil => exact absurd hs (splitSep_ne_nil sep cs)
      | cons q qs =>
        simp only [hs] at hp
        rcases List.mem_cons.mp hp with h1 | h1
        · subst h1
          intro hm
          rcases List.mem_cons.mp hm with h2 | h2
          · exact hc h2.symm
          · exact ih q (by rw [hs]; exact List.mem_cons_self q qs) h2
        · exact ih p (by rw [hs]; exact List.mem_cons_of_mem q h1)

theorem splitSep_no_sep (sep : Char) (p : List Char) (h : sep ∉ p) :
    splitSep sep p = [p] := by
  induction p with
  | nil => rfl
  | cons c p ih =>
    have hc : ¬(c = sep) := fun hh => h (List.mem_cons.mpr (Or.inl hh.symm))
    have hp : sep ∉ p := fun hm => h (List.mem_cons_of_mem c hm)
    simp only [splitSep, if_neg hc, ih hp]

theorem splitSep_append (sep : Char) (p rest : List Char) (h : sep ∉ p) :
    splitSep sep (p ++ sep :: rest) = p :: splitSep sep rest := by
  induction p with
  | nil => simp [splitSep]
  | cons c p ih =>
    have hc : ¬(c = sep) := fun hh => h (List.mem_cons.mpr (Or.inl hh.symm))
    have hp : sep ∉ p := fun hm => h (List.mem_cons_of_mem c hm)
    simp only [List.cons_append, splitSep, if_neg hc, List.append_eq]
    rw [ih hp]

theorem splitSep_joinSep (sep : Char) (parts : List (List Char)) :
    parts ≠ [] → (∀ p ∈ parts, sep ∉ p) →
    splitSep sep (joinSep sep parts) = parts := by
  induction parts with
  | nil => intro hne _; exact absurd rfl hne
  | cons p ps ih =>
    intro _ h
    cases ps with
    | nil =>
      simp only [joinSep]
      exact splitSep_no_sep sep p (h p (List.mem_cons_self p []))
    | cons q qs =>
      simp only [joinSep]
      rw [splitSep_append sep p _ (h p (List.mem_cons_self _ _)),
          ih (by simp) (fun r hr => h r (List.mem_cons_of_mem p hr))]

theorem octet_no_dot {p : List Char} (h : isOctetStr p = true) :
    ¬('.' ∈ p) := by
  intro hm
  simp only [isOctetStr, Bool.and_eq_true, List.all_eq_true] at h
  exact absurd (h.1.2 '.' hm) (by decide)

theorem parseIPv4_isSome_iff (cs : List Char) :
    (parseIPv4 cs).isSome = true ↔ isValidIPv4 cs := by
  constructor
  · intro h
    simp only [parseIPv4] at h
    split at h
    · rename_i hcond
      simp only [Bool.and_eq_true, decide_eq_true_eq,
        List.all_eq_true] at hcond
      exact ⟨splitSep '.' cs, hcond.1, hcond.2,
        (joinSep_splitSep '.' cs).symm⟩
    · simp at h
  · rintro ⟨parts, h4, hall, rfl⟩
    have hne : parts ≠ [] := by intro h0; subst h0; simp at h4
    have hnd : ∀ p ∈ parts, ¬('.' ∈ p) := fun p hp => octet_no_dot (hall p hp)
    simp only [parseIPv4]
    rw [splitSep_joinSep '.' parts hne hnd]
    simp [h4, List.all_eq_true]
    exact hall

theorem splitDC_sound : ∀ cs l r, splitDC cs = some (l, r) →
    cs = l ++ ':' :: ':' :: r := by
  intro cs
  induction cs with
  | nil => intro l r h; simp [splitDC] at h
  | cons c cs ih =>
    intro l r h
    cases cs with
    | nil => simp [splitDC] at h
    | cons c2 rest =>
      simp only [splitDC] at h
      split at h
      · rename_i hcc
        injection h with h
        injection h with h1 h2
        subst h1; subst h2
        obtain ⟨hc1, hc2⟩ := hcc
        subst hc1; subst hc2
        rfl
      · rename_i hcc
        cases hs : splitDC (c2 :: rest) with
        | none => rw [hs] at h; simp at h
        | some pr =>
          obtain ⟨l', r'⟩ := pr
          simp only [hs, Option.map_some'] at h
          injection h with h
          injection h with h1 h2
          subst h1; subst h2
          have hrec := ih l' r' hs
          rw [List.cons_append, ← hrec]

theorem splitDC_append_left : ∀ g xs, ¬(':' ∈ g) →
    splitDC (g ++ xs) = (splitDC xs).map fun p => (g ++ p.1, p.2) := by
  intro g
  induction g with
  | nil =>
    intro xs _
    simp only [List.nil_append]
    cases h : splitDC xs <;> simp [h]
  | cons c g ih =>
    intro xs hg
    have hc : ¬(c = ':') := fun hh => hg (List.mem_cons.mpr (Or.inl hh.symm))
    have hg2 : ¬(':' ∈ g) := fun hm => hg (List.mem_cons_of_mem c hm)
    cases hgx : g ++ xs with
    | nil =>
      obtain ⟨hg0, hx0⟩ := List.append_eq_nil.mp hgx
      subst hg0; subst hx0
      simp [splitDC]
    | cons d ys =>
      have hsh : (c :: g) ++ xs = c :: d :: ys := by
        rw [List.cons_append, hgx]
      rw [hsh]
      have hcc : ¬(c = ':' ∧ d = ':') := fun hand => hc hand.1
      simp only [splitDC, if_neg hcc]
      rw [← hgx, ih xs hg2]
      cases splitDC xs <;> simp

theorem splitDC_of_no_colon (g : List Char) (h : ¬(':' ∈ g)) :
    splitDC g = none := by
  have := splitDC_append_left g [] h
  simpa [splitDC] using this

theorem hexGroup_no_colon {g : List Char} (h : isHexGroup g = true) :
    ¬(':' ∈ g) := by
  intro hm
  simp only [isHexGroup, Bool.and_eq_true, List.all_eq_true] at h
  exact absurd (h.2 ':' hm) (by decide)

theorem hexGroup_ne_nil {g : List Char} (h : isHexGroup g = true) :
    g ≠ [] := by
  intro h0
  subst h0
  exact absurd h (by decide)

theorem joinSep_head (gs : List (List Char)) (g : List Char)
    (hg : isHexGroup g = true) :
    ∃ c t, joinSep ':' (g :: gs) = c :: t ∧ ¬(c = ':') := by
  obtain ⟨c, g2, hgc⟩ := List.exists_cons_of_ne_nil (hexGroup_ne_nil hg)
  subst hgc
  have hc : ¬(c = ':') := fun hh =>
    hexGroup_no_colon hg (List.mem_cons.mpr (Or.inl hh.symm))
  cases gs with
  | nil => exact ⟨c, g2, by simp [joinSep], hc⟩
  | cons q qs =>
    exact ⟨c, g2 ++ ':' :: joinSep ':' (q :: qs), by simp [joinSep], hc⟩

theorem splitDC_joinSep_none : ∀ gs : List (List Char),
    (∀ g ∈ gs, isHexGroup g = true) → splitDC (joinSep ':' gs) = none := by
  intro gs
  induction gs with
  | nil => intro _; rfl
  | cons g gs ih =>
    intro h
    have hg := h g (List.mem_cons_self _ _)
    cases gs with
    | nil =>
      simp only [joinSep]
      exact splitDC_of_no_colon g (hexGroup_no_colon hg)
    | cons q qs =>
      simp only [joinSep]
      rw [splitDC_append_left g _ (hexGroup_no_colon hg)]
      obtain ⟨c, t, hjoin, hc⟩ := joinSep_head qs q (h q (by simp))
      rw [hjoin]
      have hcc : ¬(True ∧ c = ':') := fun hand => hc hand.2
      simp only [splitDC]
      rw [if_neg hcc, ← hjoin,
        ih (fun g2 hg2 => h g2 (List.mem_cons_of_mem _ hg2))]
      rfl

theorem splitDC_join_append : ∀ (gl : List (List Char)) (r : List Char),
    (∀ g ∈ gl, isHexGroup g = true) →
    splitDC (joinSep ':' gl ++ ':' :: ':' :: r) =
      some (joinSep ':' gl, r) := by
  intro gl
  induction gl with
  | nil =>
    intro r _
    simp only [joinSep, List.nil_append]
    simp [splitDC]
  | cons g gs ih =>
    intro r h
    have hg := h g (List.mem_cons_self _ _)
    cases gs with
    | nil =>
      simp only [joinSep]
      rw [splitDC_append_left g _ (hexGroup_no_colon hg)]
      simp [splitDC]
    | cons q qs =>
      simp only [joinSep]
      rw [List.append_assoc, List.cons_append]
      rw [splitDC_append_left g _ (hexGroup_no_colon hg)]
      obtain ⟨c, t, hjoin, hc⟩ := joinSep_head qs q (h q (by simp))
      rw [hjoin]
      have hcc : ¬(True ∧ c = ':') := fun hand => hc hand.2
      simp only [List.cons_append, List.append_eq, splitDC]
      rw [if_neg hcc]
      have hsh : c :: (t ++ ':' :: ':' :: r) = (c :: t) ++ ':' :: ':' :: r := by
        simp
      rw [hsh, ← hjoin,
        ih r (fun g2 hg2 => h g2 (List.mem_cons_of_mem _ hg2))]
      simp

theorem strictGroups_sound {l : List Char} {gl : List (List Char)}
    (h : strictGroups l = some gl) :
    (∀ g ∈ gl, isHexGroup g = true) ∧ l = joinSep ':' gl := by
  unfold strictGroups at h
  split at h
  · rename_i hl
    injection h with h
    subst h
    refine ⟨by simp, ?_⟩
    cases l with
    | nil => rfl
    | cons c cs => simp at hl
  · rename_i hl
    split at h
    · rename_i hall
      injection h with h
      subst h
      exact ⟨List.all_eq_true.mp hall, (joinSep_splitSep ':' l).symm⟩
    · simp at h

theorem strictGroups_complete : ∀ gl : List (List Char),
    (∀ g ∈ gl, isHexGroup g = true) →
    strictGroups (joinSep ':' gl) = some gl := by
  intro gl h
  cases gl with
  | nil => rfl
  | cons g gs =>
    obtain ⟨c, t, hjoin, hc⟩ := joinSep_head gs g (h g (List.mem_cons_self _ _))
    have hne : (joinSep ':' (g :: gs)).isEmpty = false := by
      rw [hjoin]; rfl
    simp only [strictGroups, hne, Bool.false_eq_true, if_false]
    rw [splitSep_joinSep ':' (g :: gs) (by simp)
      (fun p hp => hexGroup_no_colon (h p hp))]
    rw [if_pos (List.all_eq_true.mpr h)]

theorem parseIPv6_isSome_iff (cs : List Char) :
    (parseIPv6 cs).isSome = true ↔ isValidIPv6 cs := by
  constructor
  · intro h
    unfold parseIPv6 at h
    cases hdc : splitDC cs with
    | none =>
      simp only [hdc] at h
      split at h
      · rename_i hcond
        simp only [Bool.and_eq_true, decide_eq_true_eq,
          List.all_eq_true] at hcond
        exact Or.inl ⟨splitSep ':' cs, hcond.1, hcond.2,
          (joinSep_splitSep ':' cs).symm⟩
      · simp at h
    | some pr =>
      obtain ⟨l, r⟩ := pr
      simp only [hdc] at h
      cases hsl : strictGroups l with
      | none => simp [hsl] at h
      | some gl =>
        cases hsr : strictGroups r with
        | none => simp [hsl, hsr] at h
        | some gr =>
          simp only [hsl, hsr] at h
          split at h
          · rename_i hle
            obtain ⟨hgl, hleq⟩ := strictGroups_sound hsl
            obtain ⟨hgr, hreq⟩ := strictGroups_sound hsr
            refine Or.inr ⟨gl, gr, hle, hgl, hgr, ?_⟩
            rw [splitDC_sound cs l r hdc, hleq, hreq]
          · simp at h
  · intro hv
    rcases hv with ⟨gs, h8, hg, rfl⟩ | ⟨gl, gr, h7, hgl, hgr, rfl⟩
    · have hne : gs ≠ [] := by intro h0; subst h0; simp at h8
      simp only [parseIPv6, splitDC_joinSep_none gs hg,
        splitSep_joinSep ':' gs hne
          (fun p hp => hexGroup_no_colon (hg p hp))]
      simp [h8, List.all_eq_true]
      exact hg
    · simp only [parseIPv6, splitDC_join_append gl (joinSep ':' gr) hgl,
        strictGroups_complete gl hgl, strictGroups_complete gr hgr]
      simp [h7]

/-- Claim C7 (spec-modelled): the validator accepts a string exactly when
it is a syntactically valid dotted-quad IPv4 literal or colon-form IPv6
literal of the declarative grammar — so every malformed string (empty,
wrong number of octets, out-of-range octet, malformed separators, non-hex
group) is rejected, and every well-formed literal is accepted. -/
theorem claim_C7 (s : String) :
    (validate_ip_address s).isSome = true ↔
      (isValidIPv4 s.data ∨ isValidIPv6 s.data) := by
  unfold validate_ip_address
  cases h4 : parseIPv4 s.data with
  | some a =>
    constructor
    · intro _
      exact Or.inl ((parseIPv4_isSome_iff s.data).mp (by rw [h4]; rfl))
    · intro _
      rfl
  | none =>
    constructor
    · intro h6
      exact Or.inr ((parseIPv6_isSome_iff s.data).mp h6)
    · rintro (hv4 | hv6)
      · have h0 := (parseIPv4_isSome_iff s.data).mpr hv4
        rw [h4] at h0
        simp at h0
      · exact (parseIPv6_isSome_iff s.data).mpr hv6

theorem claim_C7_witness :
    (validate_ip_address "8.8.8.8").isSome = true ∧
    (validate_ip_address "").isSome = false := by
  constructor
  · exact (claim_C7 "8.8.8.8").mpr
      (Or.inl ⟨[['8'], ['8'], ['8'], ['8']], by decide, by decide, by decide⟩)
  · rfl

end Geolius
